import Mathlib

/-
Verification of the resume/job/interview data-model and CRUD lifecycle of the
AI-Powered Resume Parser, Job Matcher and Interview Prep application.

Shallow embedding conventions:
- MongoDB collections become Lean lists of records; a Mongoose document
  becomes a Lean structure.
- JavaScript numbers are modelled as ℚ where the source can produce
  fractional values (AI match scores, practice-session confidences and
  durations) and as Nat/Int where the source only ever holds integers
  (counters, list lengths, rounded percentages).
- Timestamps (`new Date()`) are modelled as a Nat supplied as a `now`
  argument to each operation.
- `undefined`-able request-body fields become `Option` values.
- Express handlers that can answer 404 become functions into `Except String`.

Each definition is annotated with the source file and lines it embeds.
-/

namespace CareerPrep

/-- Models JavaScript `Math.round x` (round half toward +∞): `⌊x + 1/2⌋`. -/
def jsRound (x : ℚ) : Int := ⌊x + 1/2⌋

/-- Integer form of `Math.round((c / t) * 100)` for natural `c`, `t` with
`t > 0`, as computed in `InterviewPrep.ts:333-335` and
`interview_controller.ts:245-247`: `⌊100*c/t + 1/2⌋ = (200*c + t) / (2*t)`
in natural division. -/
def pctRound (c t : Nat) : Nat := (200 * c + t) / (2 * t)

/-- Sanity check: `pctRound` agrees with `Math.round` (`jsRound`) applied to
the rational `(c / t) * 100` whenever `t ≠ 0`. -/
theorem pctRound_models_jsRound (c t : Nat) (h : t ≠ 0) :
    (pctRound c t : Int) = jsRound ((c : ℚ) / t * 100) := by
  unfold pctRound jsRound
  have ht : (t : ℚ) ≠ 0 := Nat.cast_ne_zero.mpr h
  have key : (c : ℚ) / t * 100 + 1/2 = ((200 * c + t : ℕ) : ℚ) / ((2 * t : ℕ) : ℚ) := by
    push_cast
    field_simp
    ring
  rw [key, Rat.floor_natCast_div_natCast]
  exact Int.ofNat_tdiv _ _

/- ============================================================
   Resume data model (src/Backend/src/db/models/ParsedResume.ts)
   ============================================================ -/

/-- One work-experience entry of the structured resume payload
(`StructuredResume.experience` element, resumeAnalyzer service). -/
structure Experience where
  company : String
  role : String
  location : Option String := none
  startDate : Option String := none
  endDate : Option String := none
  duration : Option String := none
  description : Option String := none
  highlights : List String := []
  technologies : List String := []
  isCurrentRole : Option Bool := none
deriving DecidableEq, Repr

/-- One education entry of the structured resume payload. -/
structure Education where
  institution : String
  degree : Option String := none
  field : Option String := none
  location : Option String := none
  startDate : Option String := none
  endDate : Option String := none
  duration : Option String := none
  gpa : Option String := none
deriving DecidableEq, Repr

/-- One project entry of the structured resume payload. -/
structure Project where
  name : String
  description : Option String := none
  url : Option String := none
  technologies : List String := []
  highlights : List String := []
deriving DecidableEq, Repr

/-- One certification entry of the structured resume payload. -/
structure Certification where
  name : String
  issuer : String
  issueDate : Option String := none
  credentialId : Option String := none
deriving DecidableEq, Repr

/-- The structured payload produced by the resume analyzer
(`StructuredResume`, resumeAnalyzer service) and stored verbatim as
`structuredJson` by `uploadResume` / `reanalyzeResume`
(interview_controller.ts:428-441 and 629-642). In the TypeScript interface
`skills`, `experience` and `education` are non-optional arrays. -/
structure StructuredResume where
  name : String
  email : Option String := none
  phone : Option String := none
  location : Option String := none
  summary : Option String := none
  headline : Option String := none
  skills : List String
  experience : List Experience
  education : List Education
  projects : List Project := []
  certifications : List Certification := []
  languages : List String := []
deriving DecidableEq, Repr

/-- A `ParsedResume` document (ParsedResume.ts main schema): GridFS
reference, raw text, the structured payload, and the denormalized
top-level copies of `skills` / `experience` / `education`. -/
structure ParsedResume where
  rid : Nat
  userId : Nat
  gridFSFileId : Nat
  originalFileName : String
  fileSize : Nat
  rawText : String
  pageCount : Nat
  structuredJson : StructuredResume
  skills : List String
  experience : List Experience
  education : List Education
  parsingVersion : String := "1.0.0"
  aiModel : String := "gpt-4o"
  isActive : Bool
deriving DecidableEq, Repr

/-- User analytics aggregate (User.ts `dashboardAnalyticsSchema`). -/
structure DashboardAnalytics where
  totalJobsDiscovered : Nat := 0
  totalJobsApplied : Nat := 0
  averageMatchScore : ℚ := 0
  topStrengths : List String := []
  skillGaps : List String := []
  lastUpdated : Nat := 0
deriving DecidableEq, Repr

/-- A `User` document (User.ts main schema), restricted to the fields the
resume/job lifecycle touches. -/
structure UserRec where
  uid : Nat
  activeResumeId : Option Nat := none
  analytics : DashboardAnalytics := {}
deriving DecidableEq, Repr

/-- The persistent state touched by the resume lifecycle: the
`parsed_resumes` and `users` collections. -/
structure ResumeDB where
  resumes : List ParsedResume
  users : List UserRec
deriving DecidableEq, Repr

/-- Models `ParsedResume.updateMany({ userId, isActive: true },
{ isActive: false })` — step 4 of `uploadResume`
(interview_controller.ts:408-411): every active resume of `uid` is
deactivated, all other documents are untouched. -/
def deactivatePrevious (uid : Nat) (rs : List ParsedResume) : List ParsedResume :=
  rs.map fun r => if r.userId = uid ∧ r.isActive then { r with isActive := false } else r

/-- Models `User.findByIdAndUpdate(userId, { activeResumeId: ... })` —
step 6 of `uploadResume` (interview_controller.ts:457-459). -/
def setActiveResumeId (uid : Nat) (rid : Option Nat) (us : List UserRec) : List UserRec :=
  us.map fun u => if u.uid = uid then { u with activeResumeId := rid } else u

/-- Models steps 4-6 of `uploadResume` (interview_controller.ts:374-483):
deactivate every previously active resume of the user, create the new
`ParsedResume` document with `isActive: true` and the denormalized copies
taken from the structured payload, then point the user's `activeResumeId`
at the new document. The GridFS upload, PDF parsing and AI analysis
(steps 1-3) are external collaborators whose successful outputs are the
arguments here. -/
def uploadResume (uid newId : Nat) (gridFSFileId : Nat) (fileName : String)
    (fileSize : Nat) (rawText : String) (pageCount : Nat)
    (structuredResume : StructuredResume) (db : ResumeDB) : ResumeDB :=
  let resumes := deactivatePrevious uid db.resumes
  let doc : ParsedResume :=
    { rid := newId
      userId := uid
      gridFSFileId := gridFSFileId
      originalFileName := fileName
      fileSize := fileSize
      rawText := rawText
      pageCount := pageCount
      structuredJson := structuredResume
      skills := structuredResume.skills
      experience := structuredResume.experience
      education := structuredResume.education
      isActive := true }
  { resumes := resumes ++ [doc]
    users := setActiveResumeId uid (some newId) db.users }

/-- Number of resumes of user `uid` currently marked `isActive`. -/
def countActiveResumes (uid : Nat) (rs : List ParsedResume) : Nat :=
  (rs.filter fun r => decide (r.userId = uid) && r.isActive).length

theorem countActiveResumes_deactivatePrevious (uid : Nat) (rs : List ParsedResume) :
    countActiveResumes uid (deactivatePrevious uid rs) = 0 := by
  unfold countActiveResumes deactivatePrevious
  rw [List.length_eq_zero, List.filter_eq_nil_iff]
  intro a ha
  simp only [List.mem_map] at ha
  obtain ⟨r, _, rfl⟩ := ha
  by_cases h : r.userId = uid ∧ r.isActive
  · rw [if_pos h]
    simp
  · rw [if_neg h]
    simp only [Bool.and_eq_true, decide_eq_true_eq, not_and]
    intro h1 h2
    exact h ⟨h1, h2⟩

/-- C1: for every user, after any completed resume-upload operation,
exactly one `ParsedResume` record belonging to that user has
`isActive = true`: `uploadResume` first deactivates every previously
active resume of that user, then creates the new resume with
`isActive = true` and sets the user's `activeResumeId` to it. (A user who
never uploaded has zero: the empty collection trivially has none.) -/
theorem uploadResume_exactly_one_active (uid newId gid : Nat) (fileName : String)
    (fileSize : Nat) (rawText : String) (pageCount : Nat)
    (structuredResume : StructuredResume) (db : ResumeDB) :
    countActiveResumes uid
      (uploadResume uid newId gid fileName fileSize rawText pageCount
        structuredResume db).resumes = 1 ∧
    (uploadResume uid newId gid fileName fileSize rawText pageCount
        structuredResume db).resumes.getLast? =
      some { rid := newId, userId := uid, gridFSFileId := gid,
             originalFileName := fileName, fileSize := fileSize,
             rawText := rawText, pageCount := pageCount,
             structuredJson := structuredResume,
             skills := structuredResume.skills,
             experience := structuredResume.experience,
             education := structuredResume.education,
             isActive := true } := by
  constructor
  · unfold uploadResume countActiveResumes
    simp only [List.filter_append]
    rw [List.length_append]
    have h0 := countActiveResumes_deactivatePrevious uid db.resumes
    unfold countActiveResumes at h0
    rw [h0]
    simp
  · exact List.getLast?_concat _

/- ============================================================
   Resume reanalysis (interview_controller.ts:610-661)
   ============================================================ -/

/-- Models the mutation performed by `reanalyzeResume`
(interview_controller.ts:626-647): the freshly analyzed structured payload
overwrites `structuredJson` field by field (lines 629-642), and the three
denormalized arrays are overwritten from the same source object
(lines 643-645; `structuredResume.skills || []` is `structuredResume.skills`
because the TypeScript interface makes it a non-optional array and an empty
JavaScript array is truthy). This is the spec's `replaceStructuredData`. -/
def reanalyzeResume (structuredResume : StructuredResume) (r : ParsedResume) : ParsedResume :=
  { r with
    structuredJson :=
      { name := structuredResume.name
        email := structuredResume.email
        phone := structuredResume.phone
        location := structuredResume.location
        summary := structuredResume.summary
        headline := structuredResume.headline
        skills := structuredResume.skills
        experience := structuredResume.experience
        education := structuredResume.education
        projects := structuredResume.projects
        certifications := structuredResume.certifications
        languages := structuredResume.languages }
    skills := structuredResume.skills
    experience := structuredResume.experience
    education := structuredResume.education }

/-- C8: after `reanalyzeResume` overwrites a resume's `structuredJson` with
payload `P`, a subsequent read of the top-level `skills`, `experience` and
`education` fields returns exactly the corresponding fields embedded in
`P`, and the denormalized copies cannot diverge from the structured
payload. -/
theorem reanalyzeResume_roundtrip (P : StructuredResume) (r : ParsedResume) :
    (reanalyzeResume P r).skills = P.skills ∧
    (reanalyzeResume P r).experience = P.experience ∧
    (reanalyzeResume P r).education = P.education ∧
    (reanalyzeResume P r).skills = (reanalyzeResume P r).structuredJson.skills ∧
    (reanalyzeResume P r).experience = (reanalyzeResume P r).structuredJson.experience ∧
    (reanalyzeResume P r).education = (reanalyzeResume P r).structuredJson.education :=
  ⟨rfl, rfl, rfl, rfl, rfl, rfl⟩

/- ============================================================
   JobMatch data model (src/Backend/src/db/models/User.ts, second
   document: jobMatchSchema) and job controller
   (src/Backend/src/Controllers/job_controller.ts)
   ============================================================ -/

/-- Application-status enumeration (`jobMatchSchema.applicationStatus`). -/
inductive ApplicationStatus
  | not_applied
  | applied
  | interviewing
  | offered
  | rejected
  | withdrawn
deriving DecidableEq, Repr

/-- Coarse fit bucket (`matchAnalysisSchema.overallFit`). -/
inductive OverallFit
  | excellent
  | good
  | moderate
  | low
deriving DecidableEq, Repr

/-- A `JobMatch` document (jobMatchSchema), with the `matchAnalysis`
sub-document flattened into the four skill lists and `overallFit`. -/
structure JobMatchRec where
  mid : Nat
  userId : Nat
  resumeId : Option Nat := none
  jobTitle : String
  company : String
  location : String
  description : String := ""
  url : String := ""
  source : String := "SerpAPI"
  matchScore : ℚ
  whyThisJobFits : String := ""
  matchingSkills : List String := []
  missingSkills : List String := []
  strengthAreas : List String := []
  improvementAreas : List String := []
  overallFit : OverallFit
  applied : Bool := false
  appliedDate : Option Nat := none
  applicationStatus : ApplicationStatus := ApplicationStatus.not_applied
  applicationNotes : Option String := none
  isSaved : Bool := false
  isHidden : Bool := false
deriving DecidableEq, Repr

/-- Models the score produced by `matchJob` (jobMatcher service):
`Math.max(0, Math.min(100, matchData.matchScore || 0))`, where the raw
score comes from the scoring collaborator and is `0` on a missing value
(the whole call falls back to score `0` on failure). -/
def matchJobScore (raw : Option ℚ) : ℚ := max 0 (min 100 (raw.getD 0))

/-- Models the fit bucket computed in `discoverJobs`
(job_controller.ts:77-79): `matchScore >= 80 ? 'excellent' :
matchScore >= 60 ? 'good' : matchScore >= 40 ? 'moderate' : 'low'`. -/
def overallFitOf (s : ℚ) : OverallFit :=
  if 80 ≤ s then OverallFit.excellent
  else if 60 ≤ s then OverallFit.good
  else if 40 ≤ s then OverallFit.moderate
  else OverallFit.low

/-- Models one element of `matchesToSave` in `discoverJobs`
(job_controller.ts:55-89): the persisted record carries the clamped score
from `matchJob` and the fit bucket derived from that same score. -/
def discoverSavedMatch (mid uid rid : Nat)
    (jobTitle company location description url why : String)
    (raw : Option ℚ) (matchingSkills skillGaps : List String) : JobMatchRec :=
  { mid := mid
    userId := uid
    resumeId := some rid
    jobTitle := jobTitle
    company := company
    location := location
    description := description
    url := url
    source := "SerpAPI"
    matchScore := matchJobScore raw
    whyThisJobFits := why
    matchingSkills := matchingSkills
    missingSkills := skillGaps
    overallFit := overallFitOf (matchJobScore raw)
    applied := false
    isSaved := false
    isHidden := false }

/-- C9: every `JobMatch` record persisted by `discoverJobs` has
`0 ≤ matchScore ≤ 100`, and its `matchAnalysis.overallFit` is
`excellent` iff `matchScore ≥ 80`, `good` iff `60 ≤ matchScore < 80`,
`moderate` iff `40 ≤ matchScore < 60`, and `low` iff `matchScore < 40`. -/
theorem discoverSavedMatch_score_bounds_and_fit (mid uid rid : Nat)
    (jobTitle company location description url why : String)
    (raw : Option ℚ) (matchingSkills skillGaps : List String) :
    0 ≤ (discoverSavedMatch mid uid rid jobTitle company location description
          url why raw matchingSkills skillGaps).matchScore ∧
    (discoverSavedMatch mid uid rid jobTitle company location description
          url why raw matchingSkills skillGaps).matchScore ≤ 100 ∧
    ((discoverSavedMatch mid uid rid jobTitle company location description
          url why raw matchingSkills skillGaps).overallFit = OverallFit.excellent ↔
      80 ≤ (discoverSavedMatch mid uid rid jobTitle company location description
          url why raw matchingSkills skillGaps).matchScore) ∧
    ((discoverSavedMatch mid uid rid jobTitle company location description
          url why raw matchingSkills skillGaps).overallFit = OverallFit.good ↔
      60 ≤ (discoverSavedMatch mid uid rid jobTitle company location description
          url why raw matchingSkills skillGaps).matchScore ∧
      (discoverSavedMatch mid uid rid jobTitle company location description
          url why raw matchingSkills skillGaps).matchScore < 80) ∧
    ((discoverSavedMatch mid uid rid jobTitle company location description
          url why raw matchingSkills skillGaps).overallFit = OverallFit.moderate ↔
      40 ≤ (discoverSavedMatch mid uid rid jobTitle company location description
          url why raw matchingSkills skillGaps).matchScore ∧
      (discoverSavedMatch mid uid rid jobTitle company location description
          url why raw matchingSkills skillGaps).matchScore < 60) ∧
    ((discoverSavedMatch mid uid rid jobTitle company location description
          url why raw matchingSkills skillGaps).overallFit = OverallFit.low ↔
      (discoverSavedMatch mid uid rid jobTitle company location description
          url why raw matchingSkills skillGaps).matchScore < 40) := by
  simp only [discoverSavedMatch]
  have hs0 : 0 ≤ matchJobScore raw := le_max_left _ _
  have hs100 : matchJobScore raw ≤ 100 := max_le (by norm_num) (min_le_left _ _)
  refine ⟨hs0, hs100, ?_, ?_, ?_, ?_⟩ <;>
    · unfold overallFitOf
      split_ifs <;> simp_all [not_le] <;> intros <;> linarith

/-- Models the effect of `markAsApplied` (job_controller.ts:188-232) on the
targeted `JobMatch` record and on the owning user's analytics. The handler
uses `findOneAndUpdate` with an unconditional `$set` — `applied: true`,
`appliedDate: new Date()`, `applicationStatus: 'applied'` — so it bypasses
the `jobMatchSchema.pre('save')` guard, and it always runs
`$inc: { 'analytics.totalJobsApplied': 1 }` on the user
(job_controller.ts:214-217). Mongoose strips an `undefined`
`applicationNotes` from the update, so a missing `notes` leaves the field
unchanged. -/
def markAsApplied (now : Nat) (notes : Option String) (m : JobMatchRec) (u : UserRec) :
    JobMatchRec × UserRec :=
  ({ m with
      applied := true
      appliedDate := some now
      applicationStatus := ApplicationStatus.applied
      applicationNotes := match notes with
        | some n => some n
        | none => m.applicationNotes },
   { u with analytics := { u.analytics with
      totalJobsApplied := u.analytics.totalJobsApplied + 1
      lastUpdated := now } })

/-- Models `jobMatchSchema.pre('save')` (User.ts:504-511, second document):
on a document save, when `applied` was modified, is now `true` and
`appliedDate` is unset, stamp `appliedDate` and force
`applicationStatus = 'applied'`. This middleware encodes the set-once
semantics, but the `markAsApplied` handler never triggers it because
`findOneAndUpdate` does not run document save middleware. -/
def jobMatchPreSave (now : Nat) (modifiedApplied : Bool) (m : JobMatchRec) : JobMatchRec :=
  if modifiedApplied ∧ m.applied ∧ m.appliedDate = none then
    { m with appliedDate := some now, applicationStatus := ApplicationStatus.applied }
  else m

/-- Sanity check: the schema middleware itself does implement set-once
semantics — a record whose `appliedDate` is already set keeps it. -/
theorem jobMatchPreSave_keeps_appliedDate (now : Nat) (b : Bool) (m : JobMatchRec) (d : Nat)
    (h : m.appliedDate = some d) : (jobMatchPreSave now b m).appliedDate = some d := by
  unfold jobMatchPreSave
  split_ifs with hc
  · rw [hc.2.2] at h
    exact absurd h (by simp)
  · exact h

/-- Concrete `JobMatch` record used to evaluate the `markAsApplied` handler. -/
def jmExample : JobMatchRec :=
  { mid := 1
    userId := 7
    jobTitle := "Backend Developer"
    company := "Acme"
    location := "Remote"
    matchScore := 90
    overallFit := OverallFit.excellent }

/-- Concrete user record owning `jmExample`. -/
def userExample : UserRec := { uid := 7 }

/-- C2 (failing-input evaluation): `markAsApplied` is NOT idempotent with
respect to `appliedDate`. Calling the handler at time 1 sets
`appliedDate = 1`; calling it again at time 2 on the already-applied
record overwrites `appliedDate` to 2 instead of keeping the first-set
value, because the handler's `findOneAndUpdate` sets
`appliedDate: new Date()` unconditionally and bypasses the
`jobMatchSchema.pre('save')` set-once guard. -/
theorem markAsApplied_overwrites_appliedDate :
    (markAsApplied 1 none jmExample userExample).1.appliedDate = some 1 ∧
    (markAsApplied 2 none (markAsApplied 1 none jmExample userExample).1
        (markAsApplied 1 none jmExample userExample).2).1.appliedDate = some 2 ∧
    (2 : Nat) ≠ 1 :=
  ⟨rfl, rfl, by decide⟩

/-- C3 (failing-input evaluation): the user's
`analytics.totalJobsApplied` counter is incremented on every
`markAsApplied` call, not exactly once per record: after a second call on
the same already-applied record the counter reads 2, because the
`$inc: { 'analytics.totalJobsApplied': 1 }` in job_controller.ts:214-217
is unconditional — the handler never checks whether the record was
already `applied`. -/
theorem markAsApplied_double_increments_counter :
    (markAsApplied 1 none jmExample userExample).1.applied = true ∧
    (markAsApplied 1 none jmExample userExample).2.analytics.totalJobsApplied = 1 ∧
    (markAsApplied 2 none (markAsApplied 1 none jmExample userExample).1
        (markAsApplied 1 none jmExample userExample).2).2.analytics.totalJobsApplied = 2 :=
  ⟨rfl, rfl, rfl⟩

/- ============================================================
   InterviewPrep data model (src/Backend/src/db/models/InterviewPrep.ts)
   and interview controller
   (src/Backend/src/Controllers/interview_controller.ts)
   ============================================================ -/

/-- Question type enumeration (`interviewQuestionSchema.type`; the value
`'system design'` is written `systemDesign` here). -/
inductive QuestionType
  | technical
  | behavioral
  | systemDesign
  | situational
  | coding
deriving DecidableEq, Repr

/-- Question difficulty enumeration (`interviewQuestionSchema.difficulty`). -/
inductive Difficulty
  | easy
  | medium
  | hard
deriving DecidableEq, Repr

/-- Per-question confidence enumeration
(`interviewQuestionSchema.confidenceLevel`). -/
inductive ConfidenceLevel
  | low
  | medium
  | high
deriving DecidableEq, Repr

/-- Session status state machine (`interviewPrepSchema.status`). -/
inductive PrepStatus
  | draft
  | generating
  | generated
  | in_progress
  | completed
deriving DecidableEq, Repr

/-- One interview question sub-document (`interviewQuestionSchema`,
`{ _id: true }` — `qid` models the Mongo `_id` used by
`updateQuestionProgress` to locate a question; `qtype` models the schema
field `type`). -/
structure InterviewQuestion where
  qid : Nat
  question : String
  qtype : QuestionType
  difficulty : Difficulty
  topic : String
  modelAnswer : String
  hints : List String := []
  keyPoints : List String := []
  practiced : Bool := false
  practicedCount : Nat := 0
  userNotes : Option String := none
  confidenceLevel : Option ConfidenceLevel := none
deriving DecidableEq, Repr

/-- The `questionStats` aggregate sub-document (`questionStatsSchema`). -/
structure QuestionStats where
  total : Nat := 0
  technical : Nat := 0
  behavioral : Nat := 0
  systemDesign : Nat := 0
  situational : Nat := 0
  coding : Nat := 0
  easy : Nat := 0
  medium : Nat := 0
  hard : Nat := 0
deriving DecidableEq, Repr

/-- The `progress` aggregate sub-document (`progressSchema`).
`percentComplete` is a rounded percentage and therefore a natural number;
`averageConfidence` is the `Math.round`ed session mean, an integer. -/
structure Progress where
  questionsCompleted : Nat := 0
  totalQuestions : Nat := 0
  percentComplete : Nat := 0
  lastPracticedAt : Option Nat := none
  totalPracticeTime : ℚ := 0
  averageConfidence : Int := 0
deriving DecidableEq, Repr

/-- One practice-session sub-document (`practiceSessionSchema`). -/
structure PracticeSession where
  sessionDate : Nat
  questionsAttempted : ℚ
  duration : ℚ
  averageConfidence : ℚ
  notes : Option String := none
deriving DecidableEq, Repr

/-- An `InterviewPrep` document (`interviewPrepSchema`), restricted to the
fields the generation/progress/practice lifecycle touches. -/
structure InterviewPrep where
  pid : Nat
  userId : Nat
  jobMatchId : Option Nat := none
  company : String
  role : String
  technologies : List String
  questionsJson : List InterviewQuestion := []
  questionStats : QuestionStats := {}
  status : PrepStatus := PrepStatus.draft
  generatedAt : Option Nat := none
  completedAt : Option Nat := none
  progress : Progress := {}
  practiceSessions : List PracticeSession := []
deriving DecidableEq, Repr

/-- Models the statistics block computed identically in
`interviewPrepSchema.pre('save')` (InterviewPrep.ts:316-327) and in
`generateInterview` (interview_controller.ts:65-76): one count per type
bucket and per difficulty bucket, `total` being the list length. -/
def computeQuestionStats (qs : List InterviewQuestion) : QuestionStats :=
  { total := qs.length
    technical := (qs.filter fun q => decide (q.qtype = QuestionType.technical)).length
    behavioral := (qs.filter fun q => decide (q.qtype = QuestionType.behavioral)).length
    systemDesign := (qs.filter fun q => decide (q.qtype = QuestionType.systemDesign)).length
    situational := (qs.filter fun q => decide (q.qtype = QuestionType.situational)).length
    coding := (qs.filter fun q => decide (q.qtype = QuestionType.coding)).length
    easy := (qs.filter fun q => decide (q.difficulty = Difficulty.easy)).length
    medium := (qs.filter fun q => decide (q.difficulty = Difficulty.medium)).length
    hard := (qs.filter fun q => decide (q.difficulty = Difficulty.hard)).length }

/-- Models the `isModified('questionsJson')` branch of
`interviewPrepSchema.pre('save')` (InterviewPrep.ts:315-336): recompute
`questionStats` and the `questionsCompleted` / `totalQuestions` /
`percentComplete` fields of `progress` from the question list
(`percentComplete` is `Math.round((completed / total) * 100)` when the
list is non-empty and `0` otherwise). -/
def recomputeStats (p : InterviewPrep) : InterviewPrep :=
  let questions := p.questionsJson
  let completedCount := (questions.filter fun q => q.practiced).length
  { p with
    questionStats := computeQuestionStats questions
    progress := { p.progress with
      questionsCompleted := completedCount
      totalQuestions := questions.length
      percentComplete :=
        if 0 < questions.length then pctRound completedCount questions.length else 0 } }

/-- Models the status-advance tail of `interviewPrepSchema.pre('save')`
(InterviewPrep.ts:339-344): if `percentComplete === 100` and the status is
not already `completed`, set `completed` and stamp `completedAt`;
otherwise if `percentComplete > 0` while the status is `generated`, set
`in_progress`. -/
def statusAdvance (now : Nat) (p : InterviewPrep) : InterviewPrep :=
  if p.progress.percentComplete = 100 ∧ p.status ≠ PrepStatus.completed then
    { p with status := PrepStatus.completed, completedAt := some now }
  else if 0 < p.progress.percentComplete ∧ p.status = PrepStatus.generated then
    { p with status := PrepStatus.in_progress }
  else p

/-- Models the whole `interviewPrepSchema.pre('save')` middleware
(InterviewPrep.ts:313-347), which runs on every `.save()`:
`modifiedQuestionsJson` is `this.isModified('questionsJson')` — `true` on
every save that mutated the question list. -/
def preSave (now : Nat) (modifiedQuestionsJson : Bool) (p : InterviewPrep) : InterviewPrep :=
  statusAdvance now (if modifiedQuestionsJson then recomputeStats p else p)

/-- Models `generateInterview` (interview_controller.ts:9-110), the handler
registered for `POST /api/interview/generate` (Router/interview_Routes.ts).
A prep document is first created with status `generating` (lines 25-33).
`generated` is the outcome of the external question-generation
collaborator: `some qs` on success — the document is then populated,
moved to `generated` and saved (lines 51-86, running the pre-save hook) —
and `none` when the call throws, in which case the catch block
(lines 103-109) only logs and answers 500: the already-created row is not
touched again, so it stays in `generating`. -/
def generateInterview (now pid uid : Nat) (jobMatchId : Option Nat)
    (company role : String) (technologies : List String)
    (generated : Option (List InterviewQuestion)) : InterviewPrep :=
  let prepDoc : InterviewPrep :=
    { pid := pid
      userId := uid
      jobMatchId := jobMatchId
      company := company
      role := role
      technologies := technologies
      status := PrepStatus.generating }
  match generated with
  | none => prepDoc
  | some qs =>
      let qs := qs.map fun q => { q with practiced := false, practicedCount := 0 }
      let p := { prepDoc with
        questionsJson := qs
        status := PrepStatus.generated
        generatedAt := some now
        questionStats := computeQuestionStats qs
        progress := { questionsCompleted := 0, totalQuestions := qs.length,
                      percentComplete := 0, totalPracticeTime := 0,
                      averageConfidence := 0 } }
      preSave now true p

/-- Request body of `PATCH /api/interview/:id/question/:questionId`
(`updateQuestionProgress`): `none` models an absent (`undefined`) field. -/
structure QuestionProgressBody where
  practiced : Option Bool := none
  confidenceLevel : Option ConfidenceLevel := none
  userNotes : Option String := none
deriving DecidableEq, Repr

/-- Models the per-question mutation of `updateQuestionProgress`
(interview_controller.ts:229-240): `practiced` is copied when present and
`practicedCount` is incremented only when the new value is truthy;
`confidenceLevel` is copied when truthy; `userNotes` when not
`undefined`. -/
def applyQuestionBody (b : QuestionProgressBody) (q : InterviewQuestion) : InterviewQuestion :=
  let q := match b.practiced with
    | some v =>
        { q with practiced := v
                 practicedCount := if v then q.practicedCount + 1 else q.practicedCount }
    | none => q
  let q := match b.confidenceLevel with
    | some c => { q with confidenceLevel := some c }
    | none => q
  match b.userNotes with
  | some s => { q with userNotes := some s }
  | none => q

/-- Applies `applyQuestionBody` to the first question whose id matches,
modelling the in-place mutation of the element returned by
`prep.questionsJson.find(...)` (interview_controller.ts:220-222). -/
def updateFirstQuestion (qid : Nat) (b : QuestionProgressBody) :
    List InterviewQuestion → List InterviewQuestion
  | [] => []
  | q :: rest =>
      if q.qid = qid then applyQuestionBody b q :: rest
      else q :: updateFirstQuestion qid b rest

/-- Models `updateQuestionProgress` (interview_controller.ts:204-269):
404 when no question matches; otherwise mutate the question, recompute
`questionsCompleted` / `percentComplete` / `lastPracticedAt` inline
(lines 242-248; the division has no zero guard — the list is non-empty
here because the find succeeded), apply the controller's own
status-advance conditionals (lines 250-256), and save — which re-runs the
schema pre-save hook with `questionsJson` modified. -/
def updateQuestionProgress (now qid : Nat) (b : QuestionProgressBody)
    (p : InterviewPrep) : Except String InterviewPrep :=
  if (p.questionsJson.find? fun q => decide (q.qid = qid)).isNone then
    Except.error "Question not found"
  else
    let qs := updateFirstQuestion qid b p.questionsJson
    let completedCount := (qs.filter fun q => q.practiced).length
    let pc := pctRound completedCount qs.length
    let p1 : InterviewPrep := { p with
      questionsJson := qs
      progress := { p.progress with
        questionsCompleted := completedCount
        percentComplete := pc
        lastPracticedAt := some now } }
    let p2 : InterviewPrep :=
      if p1.progress.percentComplete = 100 then
        { p1 with status := PrepStatus.completed, completedAt := some now }
      else if 0 < p1.progress.percentComplete ∧ p1.status = PrepStatus.generated then
        { p1 with status := PrepStatus.in_progress }
      else p1
    Except.ok (preSave now true p2)

/-- Models `practiceSessions.reduce((sum, s) => sum + (s.averageConfidence
|| 0), 0)` (interview_controller.ts:311-314, InterviewPrep.ts:373-376);
`averageConfidence` is required in our embedding, so `|| 0` is the
identity. -/
def sessionConfidenceSum (sessions : List PracticeSession) : ℚ :=
  sessions.foldl (fun sum s => sum + s.averageConfidence) 0

/-- Models the `recordPracticeSession` mutation (instance method
InterviewPrep.ts:354-380; the handler interview_controller.ts:297-317 runs
the same statements inline): append the session row, stamp
`lastPracticedAt`, add the duration to `totalPracticeTime`, and recompute
`progress.averageConfidence` as `Math.round` of the mean of
`averageConfidence` over all session rows including the new one, then
save (the pre-save hook runs with `questionsJson` unmodified). -/
def recordPracticeSession (now : Nat) (questionsAttempted duration averageConfidence : ℚ)
    (notes : Option String) (p : InterviewPrep) : InterviewPrep :=
  let sessions := p.practiceSessions ++
    [{ sessionDate := now
       questionsAttempted := questionsAttempted
       duration := duration
       averageConfidence := averageConfidence
       notes := notes }]
  let p1 := { p with
    practiceSessions := sessions
    progress := { p.progress with
      lastPracticedAt := some now
      totalPracticeTime := p.progress.totalPracticeTime + duration
      averageConfidence := jsRound (sessionConfidenceSum sessions / sessions.length) } }
  preSave now false p1

/-- Models the request validation of `POST /api/interview/:id/practice`
(interview_controller.ts:285-289): `!questionsAttempted || !duration`
rejects missing or zero (falsy) values with 400; the stored confidence is
`averageConfidence || 0`. -/
def recordPracticeSessionEndpoint (now : Nat) (questionsAttempted duration : Option ℚ)
    (averageConfidence : Option ℚ) (notes : Option String) (p : InterviewPrep) :
    Except String InterviewPrep :=
  if questionsAttempted.getD 0 = 0 ∨ duration.getD 0 = 0 then
    Except.error "Missing required fields: questionsAttempted, duration"
  else
    Except.ok (recordPracticeSession now (questionsAttempted.getD 0) (duration.getD 0)
      (averageConfidence.getD 0) notes p)

/- ============================================================
   Helper lemmas about the pre-save hook
   ============================================================ -/

theorem statusAdvance_questionsJson (now : Nat) (p : InterviewPrep) :
    (statusAdvance now p).questionsJson = p.questionsJson := by
  unfold statusAdvance
  split_ifs <;> rfl

theorem statusAdvance_questionStats (now : Nat) (p : InterviewPrep) :
    (statusAdvance now p).questionStats = p.questionStats := by
  unfold statusAdvance
  split_ifs <;> rfl

theorem statusAdvance_progress (now : Nat) (p : InterviewPrep) :
    (statusAdvance now p).progress = p.progress := by
  unfold statusAdvance
  split_ifs <;> rfl

theorem statusAdvance_practiceSessions (now : Nat) (p : InterviewPrep) :
    (statusAdvance now p).practiceSessions = p.practiceSessions := by
  unfold statusAdvance
  split_ifs <;> rfl

theorem preSave_true (now : Nat) (p : InterviewPrep) :
    preSave now true p = statusAdvance now (recomputeStats p) := by
  unfold preSave
  rw [if_pos rfl]

theorem preSave_false (now : Nat) (p : InterviewPrep) :
    preSave now false p = statusAdvance now p := by
  unfold preSave
  rw [if_neg Bool.false_ne_true]

theorem statusAdvance_status_of_completed (now : Nat) (r : InterviewPrep)
    (hr : r.status = PrepStatus.completed) :
    (statusAdvance now r).status = PrepStatus.completed := by
  unfold statusAdvance
  split_ifs with h1 h2
  · rfl
  · rw [hr] at h2
    exact absurd h2.2 (by decide)
  · exact hr

theorem preSave_status_of_completed (now : Nat) (b : Bool) (p : InterviewPrep)
    (h : p.status = PrepStatus.completed) :
    (preSave now b p).status = PrepStatus.completed := by
  cases b with
  | false =>
      rw [preSave_false]
      exact statusAdvance_status_of_completed now p h
  | true =>
      rw [preSave_true]
      exact statusAdvance_status_of_completed now (recomputeStats p) h

/- ============================================================
   C5 / C6: derived statistics and status auto-advance
   ============================================================ -/

/-- C5: after any mutation of `questionsJson` (every such mutation is
persisted through `.save()`, which runs the pre-save hook with
`isModified('questionsJson') = true`), `questionStats.total` equals the
length of `questionsJson`, `progress.questionsCompleted` is the count of
questions with `practiced = true`, and `progress.percentComplete` equals
`round(100 * questionsCompleted / totalQuestions)`, with `0` when the
total is `0`. -/
theorem preSave_stats_consistent (now : Nat) (p : InterviewPrep) :
    (preSave now true p).questionStats.total = (preSave now true p).questionsJson.length ∧
    (preSave now true p).progress.totalQuestions = (preSave now true p).questionsJson.length ∧
    (preSave now true p).progress.questionsCompleted =
      ((preSave now true p).questionsJson.filter fun q => q.practiced).length ∧
    (preSave now true p).progress.percentComplete =
      (if (preSave now true p).questionsJson.length = 0 then 0
       else pctRound ((preSave now true p).questionsJson.filter fun q => q.practiced).length
              (preSave now true p).questionsJson.length) := by
  rw [preSave_true, statusAdvance_questionsJson, statusAdvance_questionStats,
    statusAdvance_progress]
  have hqj : (recomputeStats p).questionsJson = p.questionsJson := rfl
  rw [hqj]
  refine ⟨rfl, rfl, rfl, ?_⟩
  show (if 0 < p.questionsJson.length
          then pctRound (p.questionsJson.filter fun q => q.practiced).length
                 p.questionsJson.length
          else 0) = _
  rcases Nat.eq_zero_or_pos p.questionsJson.length with h | h
  · rw [if_neg (by omega), if_pos h]
  · rw [if_pos h, if_neg (by omega)]

/-- C6: after every `InterviewPrep` save (hence after every mutation), the
status auto-advances: it becomes `completed` with `completedAt` stamped
the instant the recomputed `percentComplete` reaches 100 (when not
already completed), and becomes `in_progress` the instant any practice
occurs (`percentComplete > 0`, not yet 100) while the status is
`generated`. -/
theorem preSave_status_advances (now : Nat) (p : InterviewPrep) :
    ((preSave now true p).progress.percentComplete = 100 →
      p.status ≠ PrepStatus.completed →
      (preSave now true p).status = PrepStatus.completed ∧
      (preSave now true p).completedAt = some now) ∧
    (0 < (preSave now true p).progress.percentComplete →
      (preSave now true p).progress.percentComplete ≠ 100 →
      p.status = PrepStatus.generated →
      (preSave now true p).status = PrepStatus.in_progress) := by
  rw [preSave_true, statusAdvance_progress]
  have hst : (recomputeStats p).status = p.status := rfl
  constructor
  · intro h100 hne
    unfold statusAdvance
    rw [if_pos ⟨h100, by rw [hst]; exact hne⟩]
    exact ⟨rfl, rfl⟩
  · intro hpos hne hgen
    unfold statusAdvance
    rw [if_neg (fun hc => hne hc.1), if_pos ⟨hpos, by rw [hst]; exact hgen⟩]

/-- Concrete prep used to exercise the status-advance rule: status
`generated`, both questions practiced, so the recomputed percentage is
100. -/
def prepC6 : InterviewPrep :=
  { pid := 2
    userId := 7
    company := "Acme"
    role := "Backend Developer"
    technologies := ["Go", "SQL"]
    status := PrepStatus.generated
    questionsJson :=
      [{ qid := 1, question := "Explain the event loop.",
         qtype := QuestionType.technical, difficulty := Difficulty.easy,
         topic := "runtime", modelAnswer := "It processes the task queue.",
         practiced := true, practicedCount := 1 },
       { qid := 2, question := "Tell me about a conflict.",
         qtype := QuestionType.behavioral, difficulty := Difficulty.medium,
         topic := "teamwork", modelAnswer := "Use the STAR method.",
         practiced := true, practicedCount := 2 }] }

/-- Witness for the status-advance theorem at a concrete record. -/
theorem preSave_status_advances_witness :
    (preSave 5 true prepC6).status = PrepStatus.completed ∧
    (preSave 5 true prepC6).completedAt = some 5 :=
  (preSave_status_advances 5 prepC6).1 rfl (by decide)

/- ============================================================
   C4: generation failure leaves the row in `generating`
   ============================================================ -/

/-- Concrete evaluation of `generateInterview` when the external
question-generation collaborator throws. -/
def failedGeneration : InterviewPrep :=
  generateInterview 0 3 7 none "Acme" "Backend Developer" ["Node.js"] none

/-- C4 (failing-input evaluation): when the question-generation call
throws after the prep row was created with status `generating`, the row
is NOT reverted to `draft`: the catch block of the routed handler
(interview_controller.ts:103-109) only logs and answers 500, so the row
survives with status `generating`. (A second, unrouted variant of this
handler in db/connection.ts:221 does revert the row to `draft` in its
catch block, which is the behaviour the claim and the spec describe.) -/
theorem generateInterview_failure_leaves_generating :
    failedGeneration.status = PrepStatus.generating ∧
    failedGeneration.status ≠ PrepStatus.draft :=
  ⟨rfl, by decide⟩

/- ============================================================
   C10: a completed prep never regresses
   ============================================================ -/

/-- C10: once an `InterviewPrep` record's status is `completed`, no
`updateQuestionProgress` call returns it to an earlier status: both the
controller's conditionals and the pre-save hook only ever advance the
status, so even unmarking a practiced question (which drops
`percentComplete` below 100) leaves the status `completed`. -/
theorem updateQuestionProgress_completed_stays (now qid : Nat) (b : QuestionProgressBody)
    (p q : InterviewPrep) (hst : p.status = PrepStatus.completed)
    (hq : updateQuestionProgress now qid b p = Except.ok q) :
    q.status = PrepStatus.completed := by
  unfold updateQuestionProgress at hq
  by_cases hfind : (p.questionsJson.find? fun q => decide (q.qid = qid)).isNone
  · rw [if_pos hfind] at hq
    exact absurd hq (by simp)
  · rw [if_neg hfind] at hq
    simp only [Except.ok.injEq] at hq
    rw [← hq]
    apply preSave_status_of_completed
    split_ifs with h100 hgen
    · rfl
    · rw [hst] at hgen
      exact absurd hgen.2 (by decide)
    · exact hst

/-- Concrete completed prep: both questions practiced, status `completed`. -/
def prepC10 : InterviewPrep :=
  { prepC6 with
    pid := 5
    status := PrepStatus.completed
    completedAt := some 4
    questionStats := computeQuestionStats prepC6.questionsJson
    progress := { questionsCompleted := 2, totalQuestions := 2, percentComplete := 100,
                  totalPracticeTime := 0, averageConfidence := 0 } }

/-- Body that unmarks question 1 (`practiced: false`). -/
def c10Body : QuestionProgressBody := { practiced := some false }

/-- Result of unmarking question 1 on the completed prep. -/
def prepC10After : InterviewPrep :=
  match updateQuestionProgress 9 1 c10Body prepC10 with
  | Except.ok q => q
  | Except.error _ => prepC10

/-- Witness: unmarking a question on a completed prep drops
`percentComplete` to 50, yet the status stays `completed`. -/
theorem updateQuestionProgress_completed_stays_witness :
    prepC10After.status = PrepStatus.completed ∧
    prepC10After.progress.percentComplete = 50 :=
  ⟨updateQuestionProgress_completed_stays 9 1 c10Body prepC10 prepC10After rfl rfl, rfl⟩

/- ============================================================
   C7: average confidence across practice sessions
   ============================================================ -/

theorem foldl_add_confidence (a : ℚ) (sessions : List PracticeSession) :
    sessions.foldl (fun sum s => sum + s.averageConfidence) a
      = a + (sessions.map fun s => s.averageConfidence).sum := by
  induction sessions generalizing a with
  | nil => simp
  | cons s rest ih =>
      simp only [List.foldl_cons, List.map_cons, List.sum_cons]
      rw [ih]
      ring

theorem sessionConfidenceSum_eq_sum (sessions : List PracticeSession) :
    sessionConfidenceSum sessions = (sessions.map fun s => s.averageConfidence).sum := by
  unfold sessionConfidenceSum
  simpa using foldl_add_confidence 0 sessions

/-- C7 (amended): after each `recordPracticeSession` call the session list
has grown by exactly one row, and `progress.averageConfidence` equals
`Math.round` of the arithmetic mean of the `averageConfidence` field
across exactly the session rows now present — a full recomputation over
all rows, not an incremental running average. (The stored value is the
rounded mean, not the exact mean: see the counterexample.) -/
theorem recordPracticeSession_average_is_rounded_mean (now : Nat)
    (questionsAttempted duration averageConfidence : ℚ) (notes : Option String)
    (p : InterviewPrep) :
    (recordPracticeSession now questionsAttempted duration averageConfidence notes
        p).practiceSessions.length = p.practiceSessions.length + 1 ∧
    (recordPracticeSession now questionsAttempted duration averageConfidence notes
        p).progress.averageConfidence =
      jsRound
        (((recordPracticeSession now questionsAttempted duration averageConfidence notes
            p).practiceSessions.map fun s => s.averageConfidence).sum
          / ((recordPracticeSession now questionsAttempted duration averageConfidence notes
            p).practiceSessions.length : ℚ)) := by
  unfold recordPracticeSession
  rw [preSave_false]
  rw [statusAdvance_practiceSessions, statusAdvance_progress]
  constructor
  · simp
  · show jsRound (sessionConfidenceSum _ / _) = _
    rw [sessionConfidenceSum_eq_sum]

/-- Concrete prep with no practice sessions, used for the C7
counterexample. -/
def prepC7 : InterviewPrep :=
  { pid := 4
    userId := 7
    company := "Acme"
    role := "Backend Developer"
    technologies := ["Go"]
    status := PrepStatus.generated }

/-- C7 counterexample: record two sessions with confidences 1 and 2 —
the stored `progress.averageConfidence` is `Math.round(3/2) = 2`, which
is NOT equal to the arithmetic mean `3/2` of the two session records, so
the claim as stated (exact equality with the mean) fails. -/
theorem recordPracticeSession_average_not_exact_mean :
    ((recordPracticeSession 2 5 10 2 none
        (recordPracticeSession 1 5 10 1 none prepC7)).progress.averageConfidence : ℚ)
      ≠ ((1 : ℚ) + 2) / 2 := by
  norm_num [recordPracticeSession, preSave, statusAdvance, recomputeStats,
    sessionConfidenceSum, jsRound, prepC7]

end CareerPrep
